import Mathlib

/-!
Group-employee HTTP handlers (main.go)

A shallow embedding of the five handlers of `main.go`:
`ListGroupEmployees`, `CreateGroupEmployee`, `DeleteGroupEmployee`,
`ListCompanyLinkedGroupEmployees` and `LinkGroupEmployeeToCompany`.

* The three stores are interfaces in the source; here they are records of
  state-passing functions over an arbitrary store state `σ`, and every handler
  returns the ordered list of store calls it made together with the final
  store state.
* `http.ResponseWriter` is a record: the handler's header map, the status and
  the headers frozen by the first `WriteHeader` (explicit, or implied by the
  first `Write`), and the body written so far.
* A Go `string` is a byte sequence; it is represented by a `String` whose
  characters stand for the bytes.
* `log.Println` has no effect on the response or the stores and is left out.
-/

namespace GroupEmployee

/-! ## Data model -/

/-- Go `error` values: the sentinel `errors.ErrNotFound` of chaku, or any other error. -/
inductive GoError where
  | ErrNotFound
  | other (msg : String)
deriving DecidableEq, Repr

/-- The message `empPb.Employee`: the two fields the handlers read or write, and the
remaining fields of the generated type as an uninterpreted payload. -/
structure Employee (ρ : Type) where
  Id : String
  Email : String
  rest : ρ

/-- The message `usrPb.UserProfile` (its value is never inspected by the handlers). -/
structure UserProfile where
  Id : String
  Email : String

/-- The message `lnkPb.Link`, with the fields the handlers use. -/
structure Link where
  FirstResourceId : String
  SecondResourceId : String
  LinkType : String

/-- Condition objects of the employee store that the handlers build. -/
inductive EmployeeCondition where
  | EmployeeEmailEq (Email : String)
  | EmployeeFullParentEq (Parent : String)
  | EmployeeIdEq (Id : String)
  | EmployeeIdIn (Id : List String)
  | EmployeeAnd (conds : List EmployeeCondition)

/-- Condition objects of the user-profile store that the handlers build. -/
inductive UserProfileCondition where
  | UserProfileEmailEq (Email : String)

/-- The one-of field `Id` of `lnkPb.ListLinksRequest`, in the variant the handlers use. -/
inductive ListLinksRequest_Id where
  | SecondResourceId (SecondResourceId : String)

/-- The message `lnkPb.ListLinksRequest`. -/
structure ListLinksRequest where
  Id : ListLinksRequest_Id
  LinkType : String

/-- The response of `LinkStore.ListLinks`. -/
structure ListLinksResponse where
  Links : List Link

/-- The body of `LinkGroupEmployeeToCompany` requests. -/
structure LinkGroupEmployeeToCompanyRequest where
  EmployeeID : String
  CompanyId : String

/-- The constant `GROUP_EMPLOYEE_COMPANY`. -/
def GROUP_EMPLOYEE_COMPANY : String := "GROUP_EMPLOYEE_COMPANY"

/-! ## Stores -/

/-- One store call, with its arguments, as recorded in a handler run. -/
inductive Call (ρ : Type) where
  | ListEmployees (fields : List String) (cond : EmployeeCondition)
  | GetEmployee (fields : List String) (cond : EmployeeCondition)
  | CreateEmployees (employee : Employee ρ)
  | DeleteEmployee (cond : EmployeeCondition)
  | GetUserProfile (fields : List String) (cond : UserProfileCondition)
  | ListLinks (req : ListLinksRequest)
  | AddLinks (links : List Link)

/-- The interface `empPb.EmployeeStore`. A Go result pair `(v, err)` is a pair whose
components may be present or absent independently. `CreateEmployees` receives a pointer
to the handler's `employee` variable, so it also returns that variable as the store
left it. -/
structure EmployeeStore (σ ρ : Type) where
  ListEmployees : List String → EmployeeCondition → σ → (List (Employee ρ) × Option GoError) × σ
  GetEmployee : List String → EmployeeCondition → σ → (Option (Employee ρ) × Option GoError) × σ
  CreateEmployees : Employee ρ → σ → (List String × Option GoError × Employee ρ) × σ
  DeleteEmployee : EmployeeCondition → σ → Option GoError × σ

/-- The interface `usrPb.UserProfileStore`. -/
structure UserProfileStore (σ : Type) where
  GetUserProfile : List String → UserProfileCondition → σ → (Option UserProfile × Option GoError) × σ

/-- The interface `lnk.LinkStore`. -/
structure LinkStore (σ : Type) where
  ListLinks : ListLinksRequest → σ → (Option ListLinksResponse × Option GoError) × σ
  AddLinks : List Link → σ → Option GoError × σ

/-- The struct `StoreImplementation` (its `Db` handle is not used by any handler). -/
structure StoreImplementation (σ ρ : Type) where
  EmployeeStore : EmployeeStore σ ρ
  UserStore : UserProfileStore σ
  LinkStore : LinkStore σ

/-- Functions of imported packages whose code is outside the repository:
`idutil.GetId`, `empPb.EmployeeAllFields()`, and the JSON decoding and encoding of the
three value types that cross the wire. -/
structure External (ρ : Type) where
  GetId : String → String
  EmployeeAllFields : List String
  DecodeEmployee : String → Except GoError (Employee ρ)
  DecodeLinkRequest : String → Except GoError LinkGroupEmployeeToCompanyRequest
  MarshalEmployee : Employee ρ → Except GoError String
  MarshalEmployees : List (Employee ρ) → Except GoError String

/-! ## net/http response writer -/

/-- A header map restricted to single values, as only `Set` and `Del` are used. -/
abbrev Header := List (String × String)

/-- The method `Header.Del`. -/
def Header.Del (h : Header) (key : String) : Header :=
  h.filter (fun kv => kv.1 != key)

/-- The method `Header.Set`. -/
def Header.Set (h : Header) (key value : String) : Header :=
  Header.Del h key ++ [(key, value)]

/-- The method `Header.Get`: the value of the key, or the empty string. -/
def Header.Get (h : Header) (key : String) : String :=
  (h.lookup key).getD ""

/-- State of an `http.ResponseWriter`: `header` is the map the handler edits through
`w.Header()`, `sentHeader` is the copy of that map frozen by the first `WriteHeader`
(explicit, or implied by the first `Write`), and `body` is what was written. The
headers the server adds on its own when it puts the response on the wire (a date, a
length, a sniffed content type) are not part of `sentHeader`; the content type on the
wire is `ResponseWriter.wireContentType`. -/
structure ResponseWriter where
  header : Header
  wroteHeader : Bool
  status : Nat
  sentHeader : Header
  body : String

/-- The writer a handler is started with. -/
def ResponseWriter.fresh : ResponseWriter :=
  ⟨[], false, 0, [], ""⟩

/-- The call `w.Header().Set(key, value)`: it changes the handler's map only. -/
def ResponseWriter.SetHeader (w : ResponseWriter) (key value : String) : ResponseWriter :=
  { w with header := Header.Set w.header key value }

/-- The call `w.Header().Del(key)`. -/
def ResponseWriter.DelHeader (w : ResponseWriter) (key : String) : ResponseWriter :=
  { w with header := Header.Del w.header key }

/-- The call `w.WriteHeader(code)`: the first call fixes the status and freezes the
headers, a later call is superfluous and ignored. -/
def ResponseWriter.WriteHeader (w : ResponseWriter) (code : Nat) : ResponseWriter :=
  if w.wroteHeader then w
  else { w with wroteHeader := true, status := code, sentHeader := w.header }

def StatusOK : Nat := 200
def StatusCreated : Nat := 201
def StatusBadRequest : Nat := 400
def StatusNotFound : Nat := 404
def StatusConflict : Nat := 409
def StatusInternalServerError : Nat := 500

/-- The call `w.Write(data)`: it implies `WriteHeader(200)` when no header was written. -/
def ResponseWriter.Write (w : ResponseWriter) (data : String) : ResponseWriter :=
  let w1 := if w.wroteHeader then w else w.WriteHeader StatusOK
  { w1 with body := w1.body ++ data }

/-- The function `http.Error`. -/
def Error (w : ResponseWriter) (error : String) (code : Nat) : ResponseWriter :=
  let w := w.DelHeader "Content-Length"
  let w := w.SetHeader "Content-Type" "text/plain; charset=utf-8"
  let w := w.SetHeader "X-Content-Type-Options" "nosniff"
  let w := w.WriteHeader code
  w.Write (error ++ "\n")

/-- The `Content-Type` of a response on the wire. -/
inductive ContentType where
  | declared (value : String)
  | sniffed (data : String)
  | absent

/-- The content type the server sends, for a status that allows a body (every status
the handlers use does): the value in the frozen headers when the handler had set one;
otherwise, when a body was written and no `Content-Encoding` was set, the result of
`http.DetectContentType` on the body, kept here as `sniffed body` (its table of
signatures has no entry for JSON: JSON text is detected as `text/plain; charset=utf-8`);
otherwise none. -/
def ResponseWriter.wireContentType (w : ResponseWriter) : ContentType :=
  match w.sentHeader.lookup "Content-Type" with
  | some value => .declared value
  | none =>
    if Header.Get w.sentHeader "Content-Encoding" = "" ∧ w.body ≠ "" then .sniffed w.body
    else .absent

/-- What the server does when the handler returns: a response without a status gets 200. -/
def finishRequest (w : ResponseWriter) : ResponseWriter :=
  if w.wroteHeader then w else w.WriteHeader StatusOK

/-- The call `json.NewEncoder(w).Encode(v)`, given the marshalling of `v`: a value that
cannot be marshalled writes nothing and returns the error, otherwise the text and a
newline are written. -/
def Encode (w : ResponseWriter) (marshalled : Except GoError String) :
    ResponseWriter × Option GoError :=
  match marshalled with
  | .error e => (w, some e)
  | .ok js => (w.Write (js ++ "\n"), none)

/-! ## Standard-library decoders used by `ListCompanyLinkedGroupEmployees` -/

/-- The table `decodeMap` of `base64.StdEncoding`: the six-bit value of a byte of the
alphabet `A-Z a-z 0-9 + /`, and nothing for any other byte. -/
def decodeMap (c : Char) : Option Nat :=
  let n := c.toNat
  if 65 ≤ n ∧ n ≤ 90 then some (n - 65)
  else if 97 ≤ n ∧ n ≤ 122 then some (n - 97 + 26)
  else if 48 ≤ n ∧ n ≤ 57 then some (n - 48 + 52)
  else if n = 43 then some 62
  else if n = 47 then some 63
  else none

/-- Line feed or carriage return, which the base64 decoder skips. -/
def isNewline (c : Char) : Bool :=
  c.toNat = 10 || c.toNat = 13

/-- The padding byte `=`. -/
def isPad (c : Char) : Bool :=
  c.toNat = 61

/-- The tail of `decodeQuantum`: the `dbuf.length - 1` bytes that the six-bit values
read so far stand for (missing values count as zero). -/
def quantumBytes (dbuf : List Nat) : List Nat :=
  let val := dbuf.getD 0 0 * 262144 + dbuf.getD 1 0 * 4096 + dbuf.getD 2 0 * 64 + dbuf.getD 3 0
  [val / 65536 % 256, val / 256 % 256, val % 256].take (dbuf.length - 1)

/-- The loop of `Encoding.Decode` for `base64.StdEncoding` (padded, not strict): `src`
is the unread input and `dbuf` the six-bit values of the current quantum. The result
is `none` where the library returns a `CorruptInputError`. -/
def decodeQuanta : List Char → List Nat → Option (List Nat)
  | [], dbuf => if dbuf.length = 0 then some [] else none
  | c :: src, dbuf =>
    match decodeMap c with
    | some out =>
      if dbuf.length = 3 then
        (decodeQuanta src []).map (fun bs => quantumBytes (dbuf ++ [out]) ++ bs)
      else decodeQuanta src (dbuf ++ [out])
    | none =>
      if isNewline c then decodeQuanta src dbuf
      else if !isPad c then none
      else if dbuf.length < 2 then none
      else if dbuf.length = 2 then
        match src.dropWhile isNewline with
        | [] => none
        | p :: src2 =>
          if !isPad p then none
          else if (src2.dropWhile isNewline).isEmpty then some (quantumBytes dbuf)
          else none
      else if (src.dropWhile isNewline).isEmpty then some (quantumBytes dbuf)
      else none

/-- The call `base64.StdEncoding.DecodeString(s)` followed by `string(bytes)`. -/
def DecodeString (s : String) : Except GoError String :=
  match decodeQuanta s.toList [] with
  | none => .error (.other "illegal base64 data")
  | some bs => .ok (String.mk (bs.map Char.ofNat))

/-- The function `ishex` of net/url. -/
def ishex (c : Char) : Bool :=
  let n := c.toNat
  (48 ≤ n && n ≤ 57) || (97 ≤ n && n ≤ 102) || (65 ≤ n && n ≤ 70)

/-- The function `unhex` of net/url. -/
def unhex (c : Char) : Nat :=
  let n := c.toNat
  if 48 ≤ n ∧ n ≤ 57 then n - 48
  else if 97 ≤ n ∧ n ≤ 102 then n - 97 + 10
  else if 65 ≤ n ∧ n ≤ 70 then n - 65 + 10
  else 0

/-- The first loop of `unescape` of net/url: every `%` (byte 37) is followed by two
hexadecimal digits. -/
def escapesWellFormed : List Char → Bool
  | [] => true
  | c :: s =>
    if c.toNat = 37 then
      match s with
      | a :: b :: t => ishex a && ishex b && escapesWellFormed t
      | _ => false
    else escapesWellFormed s

/-- The second loop of `unescape` in query-component mode: `%XY` becomes the byte
with that code and `+` (byte 43) becomes a space. -/
def unescapeBytes : List Char → List Char
  | [] => []
  | c :: s =>
    if c.toNat = 37 then
      match s with
      | a :: b :: t => Char.ofNat (unhex a * 16 + unhex b) :: unescapeBytes t
      | _ => []
    else if c.toNat = 43 then Char.ofNat 32 :: unescapeBytes s
    else c :: unescapeBytes s

/-- The function `url.QueryUnescape`: on a malformed escape it returns the empty string
together with the error. -/
def QueryUnescape (s : String) : String × Option GoError :=
  if escapesWellFormed s.toList then (String.mk (unescapeBytes s.toList), none)
  else ("", some (.other "invalid URL escape"))

/-! ## Handlers -/

/-- What a handler run leaves behind: the response writer, the store state, the store
calls in the order they were made, and whether the handler stopped in a run-time
panic (an index out of range or a nil dereference). -/
structure Outcome (σ ρ : Type) where
  w : ResponseWriter
  store : σ
  calls : List (Call ρ)
  panicked : Bool

variable {σ ρ : Type}

/-- The handler `ListGroupEmployees`, for the path value `groupId`. -/
def ListGroupEmployees (ext : External ρ) (storeImp : StoreImplementation σ ρ)
    (groupId : String) (w : ResponseWriter) (st : σ) : Outcome σ ρ :=
  let cond := EmployeeCondition.EmployeeFullParentEq groupId
  match storeImp.EmployeeStore.ListEmployees ext.EmployeeAllFields cond st with
  | ((employees, err), st1) =>
    let calls := [Call.ListEmployees ext.EmployeeAllFields cond]
    if err ≠ none then
      ⟨Error w "error in listing employees" StatusInternalServerError, st1, calls, false⟩
    else
      let w := w.SetHeader "Content-Type" "application/json"
      match Encode w (ext.MarshalEmployees employees) with
      | (w, some _) =>
        let w := w.WriteHeader StatusInternalServerError
        ⟨Error w "error in encoding employees" StatusInternalServerError, st1, calls, false⟩
      | (w, none) => ⟨w, st1, calls, false⟩

/-- The handler `CreateGroupEmployee`, for the request body `body`. -/
def CreateGroupEmployee (ext : External ρ) (storeImp : StoreImplementation σ ρ)
    (body : String) (w : ResponseWriter) (st : σ) : Outcome σ ρ :=
  match ext.DecodeEmployee body with
  | .error _ =>
    let w := w.WriteHeader StatusBadRequest
    ⟨Error w "error in decoding employee" StatusBadRequest, st, [], false⟩
  | .ok employee =>
    if employee.Email = "" then
      let w := w.WriteHeader StatusBadRequest
      ⟨Error w "error in request, email is required" StatusBadRequest, st, [], false⟩
    else
      let cond := EmployeeCondition.EmployeeAnd
        [.EmployeeEmailEq employee.Email, .EmployeeFullParentEq employee.Id]
      match storeImp.EmployeeStore.GetEmployee [] cond st with
      | ((existEmp, err), st1) =>
        let calls1 := [Call.GetEmployee [] cond]
        if err ≠ none ∧ err ≠ some GoError.ErrNotFound then
          let w := w.WriteHeader StatusInternalServerError
          ⟨Error w "error in getting employee" StatusInternalServerError, st1, calls1, false⟩
        else if existEmp.isSome then
          let w := w.WriteHeader StatusConflict
          ⟨Error w "employee already exists" StatusConflict, st1, calls1, false⟩
        else
          let ucond := UserProfileCondition.UserProfileEmailEq employee.Email
          match storeImp.UserStore.GetUserProfile [] ucond st1 with
          | ((_, err), st2) =>
            let calls2 := calls1 ++ [Call.GetUserProfile [] ucond]
            if err ≠ none then
              let w := w.WriteHeader StatusNotFound
              ⟨Error w "error in getting user" StatusNotFound, st2, calls2, false⟩
            else
              match storeImp.EmployeeStore.CreateEmployees employee st2 with
              | ((ids, err, employee1), st3) =>
                let calls3 := calls2 ++ [Call.CreateEmployees employee]
                if err ≠ none then
                  let w := w.WriteHeader StatusInternalServerError
                  ⟨Error w "error in creating employee" StatusInternalServerError,
                    st3, calls3, false⟩
                else
                  match ids with
                  | [] => ⟨w, st3, calls3, true⟩
                  | id0 :: _ =>
                    let employee2 := { employee1 with Id := id0 }
                    let w := w.WriteHeader StatusCreated
                    let w := w.SetHeader "Content-Type" "application/json"
                    match Encode w (ext.MarshalEmployee employee2) with
                    | (w, some _) =>
                      let w := w.WriteHeader StatusInternalServerError
                      ⟨Error w "error in encoding employee" StatusInternalServerError,
                        st3, calls3, false⟩
                    | (w, none) => ⟨w, st3, calls3, false⟩

/-- The handler `DeleteGroupEmployee`, for the path value `employeeId`. -/
def DeleteGroupEmployee (ext : External ρ) (storeImp : StoreImplementation σ ρ)
    (employeeId : String) (w : ResponseWriter) (st : σ) : Outcome σ ρ :=
  let cond := EmployeeCondition.EmployeeIdEq (ext.GetId employeeId)
  match storeImp.EmployeeStore.DeleteEmployee cond st with
  | (err, st1) =>
    let calls := [Call.DeleteEmployee cond]
    if err ≠ none then
      ⟨Error w "error in deleting employee" StatusInternalServerError, st1, calls, false⟩
    else ⟨w, st1, calls, false⟩

/-- The loop of `ListCompanyLinkedGroupEmployees` that collects the employee ids. -/
def collectEmployeeIds (ext : External ρ) (links : List Link) : List String :=
  links.foldl (fun employeeIds link => employeeIds ++ [ext.GetId link.FirstResourceId]) []

/-- The handler `ListCompanyLinkedGroupEmployees`, for the path value `companyId`. -/
def ListCompanyLinkedGroupEmployees (ext : External ρ) (storeImp : StoreImplementation σ ρ)
    (companyId : String) (w : ResponseWriter) (st : σ) : Outcome σ ρ :=
  match DecodeString companyId with
  | .error _ =>
    let w := w.WriteHeader StatusBadRequest
    ⟨Error w "error in decoding company id" StatusBadRequest, st, [], false⟩
  | .ok bytes =>
    let companyId := bytes
    let companyId := (QueryUnescape companyId).1
    let req : ListLinksRequest := ⟨.SecondResourceId companyId, GROUP_EMPLOYEE_COMPANY⟩
    match storeImp.LinkStore.ListLinks req st with
    | ((links, err), st1) =>
      let calls1 := [Call.ListLinks req]
      if err ≠ none then
        ⟨Error w "error in listing links" StatusInternalServerError, st1, calls1, false⟩
      else
        match links with
        | none => ⟨w, st1, calls1, true⟩
        | some links =>
          let employeeIds := collectEmployeeIds ext links.Links
          let cond := EmployeeCondition.EmployeeIdIn employeeIds
          match storeImp.EmployeeStore.ListEmployees ext.EmployeeAllFields cond st1 with
          | ((employees, err), st2) =>
            let calls2 := calls1 ++ [Call.ListEmployees ext.EmployeeAllFields cond]
            if err ≠ none then
              ⟨Error w "error in listing employees" StatusInternalServerError,
                st2, calls2, false⟩
            else
              let w := w.SetHeader "Content-Type" "application/json"
              match Encode w (ext.MarshalEmployees employees) with
              | (w, some _) =>
                let w := w.WriteHeader StatusInternalServerError
                ⟨Error w "error in encoding employees" StatusInternalServerError,
                  st2, calls2, false⟩
              | (w, none) => ⟨w, st2, calls2, false⟩

/-- The handler `LinkGroupEmployeeToCompany`, for the request body `body`. -/
def LinkGroupEmployeeToCompany (ext : External ρ) (storeImp : StoreImplementation σ ρ)
    (body : String) (w : ResponseWriter) (st : σ) : Outcome σ ρ :=
  match ext.DecodeLinkRequest body with
  | .error _ =>
    let w := w.WriteHeader StatusBadRequest
    ⟨Error w "error in decoding request" StatusBadRequest, st, [], false⟩
  | .ok request =>
    let links : List Link := [⟨request.EmployeeID, request.CompanyId, GROUP_EMPLOYEE_COMPANY⟩]
    match storeImp.LinkStore.AddLinks links st with
    | (err, st1) =>
      let calls := [Call.AddLinks links]
      if err ≠ none then
        let w := w.WriteHeader StatusInternalServerError
        ⟨Error w "error in linking employee to company" StatusInternalServerError,
          st1, calls, false⟩
      else ⟨w.WriteHeader StatusCreated, st1, calls, false⟩

/-! ## Concrete instances -/

/-- External functions for employees without further fields: ids are left as they
are, a few fixed request bodies are understood, and values are rendered as JSON text. -/
def sampleExternal : External Unit where
  GetId := fun s => s
  EmployeeAllFields := ["id", "email"]
  DecodeEmployee := fun body =>
    if body = "\x7b\"email\":\"a@x.com\"\x7d" then .ok ⟨"", "a@x.com", ()⟩
    else if body = "\x7b\"id\":\"grp_1\",\"email\":\"A@X.com\"\x7d" then
      .ok ⟨"grp_1", "A@X.com", ()⟩
    else if body = "\x7b\"id\":\"grp_1\",\"email\":\"a@x.com\"\x7d" then
      .ok ⟨"grp_1", "a@x.com", ()⟩
    else if body = "\x7b\"id\":\"grp_1\"\x7d" then .ok ⟨"grp_1", "", ()⟩
    else .error (.other "invalid character")
  DecodeLinkRequest := fun body =>
    if body = "\x7b\"employee_id\":\"emp_1\",\"company_id\":\"cmp_1\"\x7d" then
      .ok ⟨"emp_1", "cmp_1"⟩
    else if body = "\x7b\x7d" then .ok ⟨"", ""⟩
    else .error (.other "invalid character")
  MarshalEmployee := fun e =>
    .ok ("\x7b\"id\":\"" ++ e.Id ++ "\",\"email\":\"" ++ e.Email ++ "\"\x7d")
  MarshalEmployees := fun es =>
    .ok ("[" ++ ",".intercalate (es.map (fun e =>
      "\x7b\"id\":\"" ++ e.Id ++ "\",\"email\":\"" ++ e.Email ++ "\"\x7d")) ++ "]")

/-- Stores with fixed answers: `existing` is what the employee lookup finds, `profile`
what the user-profile lookup finds, `links` and `employees` what the two list calls
return; an absent answer is reported as `ErrNotFound`. Creation hands out the id
`emp_1`. The state counts the writes. -/
def fixedStores (existing : Option (Employee Unit)) (profile : Option UserProfile)
    (links : List Link) (employees : List (Employee Unit)) : StoreImplementation Nat Unit where
  EmployeeStore :=
    { ListEmployees := fun _ _ st => ((employees, none), st)
      GetEmployee := fun _ _ st =>
        match existing with
        | some e => ((some e, none), st)
        | none => ((none, some GoError.ErrNotFound), st)
      CreateEmployees := fun e st => ((["emp_1"], none, e), st + 1)
      DeleteEmployee := fun _ st => (none, st + 1) }
  UserStore :=
    { GetUserProfile := fun _ _ st =>
        match profile with
        | some p => ((some p, none), st)
        | none => ((none, some GoError.ErrNotFound), st) }
  LinkStore :=
    { ListLinks := fun _ st => ((some ⟨links⟩, none), st)
      AddLinks := fun _ st => (none, st + 1) }

/-- Stores in which the user `a@x.com` exists and no employee does, and whose
`CreateEmployees` writes through the pointer it is handed: it stores the email in lower
case and the id `emp_1`, leaves both in the caller's record, and returns `emp_1`. -/
def normalisingStores : StoreImplementation Nat Unit where
  EmployeeStore :=
    { ListEmployees := fun _ _ st => (([], none), st)
      GetEmployee := fun _ _ st => ((none, some GoError.ErrNotFound), st)
      CreateEmployees := fun e st =>
        ((["emp_1"], none, ⟨"emp_1", String.mk (e.Email.toList.map Char.toLower), e.rest⟩),
          st + 1)
      DeleteEmployee := fun _ st => (none, st + 1) }
  UserStore :=
    { GetUserProfile := fun _ _ st => ((some ⟨"usr_1", "a@x.com"⟩, none), st) }
  LinkStore :=
    { ListLinks := fun _ st => ((some ⟨[]⟩, none), st)
      AddLinks := fun _ st => (none, st + 1) }

/-- Stores whose every call fails with the same error. -/
def failingStores : StoreImplementation Nat Unit where
  EmployeeStore :=
    { ListEmployees := fun _ _ st => (([], some (.other "connection refused")), st)
      GetEmployee := fun _ _ st => ((none, some (.other "connection refused")), st)
      CreateEmployees := fun e st => (([], some (.other "connection refused"), e), st)
      DeleteEmployee := fun _ st => (some (.other "connection refused"), st) }
  UserStore :=
    { GetUserProfile := fun _ _ st => ((none, some (.other "connection refused")), st) }
  LinkStore :=
    { ListLinks := fun _ st => ((none, some (.other "connection refused")), st)
      AddLinks := fun _ st => (some (.other "connection refused"), st) }

/-! ## Basic facts about the response writer -/

section Writer

@[simp] theorem WriteHeader_status (w : ResponseWriter) (code : Nat) :
    (w.WriteHeader code).status = if w.wroteHeader then w.status else code := by
  unfold ResponseWriter.WriteHeader; split <;> simp_all

@[simp] theorem WriteHeader_wroteHeader (w : ResponseWriter) (code : Nat) :
    (w.WriteHeader code).wroteHeader = true := by
  unfold ResponseWriter.WriteHeader; split <;> simp_all

@[simp] theorem WriteHeader_body (w : ResponseWriter) (code : Nat) :
    (w.WriteHeader code).body = w.body := by
  unfold ResponseWriter.WriteHeader; split <;> simp_all

@[simp] theorem WriteHeader_sentHeader (w : ResponseWriter) (code : Nat) :
    (w.WriteHeader code).sentHeader = if w.wroteHeader then w.sentHeader else w.header := by
  unfold ResponseWriter.WriteHeader; split <;> simp_all

@[simp] theorem WriteHeader_header (w : ResponseWriter) (code : Nat) :
    (w.WriteHeader code).header = w.header := by
  unfold ResponseWriter.WriteHeader; split <;> simp_all

@[simp] theorem Write_status (w : ResponseWriter) (data : String) :
    (w.Write data).status = if w.wroteHeader then w.status else 200 := by
  unfold ResponseWriter.Write; split <;> simp_all [StatusOK]

@[simp] theorem Write_wroteHeader (w : ResponseWriter) (data : String) :
    (w.Write data).wroteHeader = true := by
  unfold ResponseWriter.Write; split <;> simp_all

@[simp] theorem Write_body (w : ResponseWriter) (data : String) :
    (w.Write data).body = w.body ++ data := by
  unfold ResponseWriter.Write; split <;> simp_all

@[simp] theorem Write_sentHeader (w : ResponseWriter) (data : String) :
    (w.Write data).sentHeader = if w.wroteHeader then w.sentHeader else w.header := by
  unfold ResponseWriter.Write; split <;> simp_all

@[simp] theorem Write_header (w : ResponseWriter) (data : String) :
    (w.Write data).header = w.header := by
  unfold ResponseWriter.Write; split <;> simp_all

@[simp] theorem SetHeader_status (w : ResponseWriter) (k v : String) :
    (w.SetHeader k v).status = w.status := rfl

@[simp] theorem SetHeader_wroteHeader (w : ResponseWriter) (k v : String) :
    (w.SetHeader k v).wroteHeader = w.wroteHeader := rfl

@[simp] theorem SetHeader_body (w : ResponseWriter) (k v : String) :
    (w.SetHeader k v).body = w.body := rfl

@[simp] theorem SetHeader_sentHeader (w : ResponseWriter) (k v : String) :
    (w.SetHeader k v).sentHeader = w.sentHeader := rfl

@[simp] theorem SetHeader_header (w : ResponseWriter) (k v : String) :
    (w.SetHeader k v).header = Header.Set w.header k v := rfl

/-- Status of a response after `http.Error`: an earlier `WriteHeader` wins. -/
@[simp] theorem Error_status (w : ResponseWriter) (msg : String) (code : Nat) :
    (Error w msg code).status = if w.wroteHeader then w.status else code := by
  simp [Error, ResponseWriter.DelHeader]

/-- Body of a response after `http.Error`: the message and a newline are appended. -/
@[simp] theorem Error_body (w : ResponseWriter) (msg : String) (code : Nat) :
    (Error w msg code).body = w.body ++ (msg ++ "\n") := by
  simp [Error, ResponseWriter.DelHeader]

@[simp] theorem Error_wroteHeader (w : ResponseWriter) (msg : String) (code : Nat) :
    (Error w msg code).wroteHeader = true := by
  simp [Error]

@[simp] theorem fresh_wroteHeader : ResponseWriter.fresh.wroteHeader = false := rfl

@[simp] theorem fresh_body : ResponseWriter.fresh.body = "" := rfl

@[simp] theorem fresh_status : ResponseWriter.fresh.status = 0 := rfl

@[simp] theorem fresh_sentHeader : ResponseWriter.fresh.sentHeader = [] := rfl

@[simp] theorem fresh_header : ResponseWriter.fresh.header = [] := rfl

end Writer

/-! ## CreateGroupEmployee -/

/-- C1: a request whose body decodes to an employee with an empty email is answered
with status 400, and the handler makes no store call at all (the call list is empty and
the store state is the one it started from), whatever the stores are. -/
theorem CreateGroupEmployee_empty_email (ext : External ρ) (storeImp : StoreImplementation σ ρ)
    (body : String) (employee : Employee ρ) (st : σ)
    (hdec : ext.DecodeEmployee body = .ok employee) (hemail : employee.Email = "") :
    (CreateGroupEmployee ext storeImp body ResponseWriter.fresh st).w.status = 400 ∧
    (CreateGroupEmployee ext storeImp body ResponseWriter.fresh st).calls = [] ∧
    (CreateGroupEmployee ext storeImp body ResponseWriter.fresh st).store = st := by
  simp [CreateGroupEmployee, hdec, hemail, StatusBadRequest]

/-- C2: with a non-empty email, when the lookup by (email = request email) and
(full parent = request Id) returns an employee and no error, the status is 409 and that
lookup is the only store call: neither `GetUserProfile` nor `CreateEmployees` is made. -/
theorem CreateGroupEmployee_conflict (ext : External ρ) (storeImp : StoreImplementation σ ρ)
    (body : String) (employee existing : Employee ρ) (st st1 : σ)
    (hdec : ext.DecodeEmployee body = .ok employee) (hemail : employee.Email ≠ "")
    (hget : storeImp.EmployeeStore.GetEmployee []
      (.EmployeeAnd [.EmployeeEmailEq employee.Email, .EmployeeFullParentEq employee.Id]) st
        = ((some existing, none), st1)) :
    (CreateGroupEmployee ext storeImp body ResponseWriter.fresh st).w.status = 409 ∧
    (CreateGroupEmployee ext storeImp body ResponseWriter.fresh st).calls =
      [Call.GetEmployee []
        (.EmployeeAnd [.EmployeeEmailEq employee.Email, .EmployeeFullParentEq employee.Id])] ∧
    (CreateGroupEmployee ext storeImp body ResponseWriter.fresh st).store = st1 := by
  simp [CreateGroupEmployee, hdec, hemail, hget, StatusConflict]

/-- C3: with a non-empty email and a lookup that finds no employee (no result, and no
error or `ErrNotFound`), any error of `GetUserProfile` by that email gives status 404,
and the store calls are the two lookups only: `CreateEmployees` is never made. -/
theorem CreateGroupEmployee_no_user (ext : External ρ) (storeImp : StoreImplementation σ ρ)
    (body : String) (employee : Employee ρ) (st st1 st2 : σ)
    (err0 : Option GoError) (profile : Option UserProfile) (e : GoError)
    (hdec : ext.DecodeEmployee body = .ok employee) (hemail : employee.Email ≠ "")
    (herr0 : err0 = none ∨ err0 = some GoError.ErrNotFound)
    (hget : storeImp.EmployeeStore.GetEmployee []
      (.EmployeeAnd [.EmployeeEmailEq employee.Email, .EmployeeFullParentEq employee.Id]) st
        = ((none, err0), st1))
    (huser : storeImp.UserStore.GetUserProfile [] (.UserProfileEmailEq employee.Email) st1
        = ((profile, some e), st2)) :
    (CreateGroupEmployee ext storeImp body ResponseWriter.fresh st).w.status = 404 ∧
    (CreateGroupEmployee ext storeImp body ResponseWriter.fresh st).calls =
      [Call.GetEmployee []
        (.EmployeeAnd [.EmployeeEmailEq employee.Email, .EmployeeFullParentEq employee.Id]),
       Call.GetUserProfile [] (.UserProfileEmailEq employee.Email)] ∧
    (∀ x, Call.CreateEmployees x ∉
      (CreateGroupEmployee ext storeImp body ResponseWriter.fresh st).calls) ∧
    (CreateGroupEmployee ext storeImp body ResponseWriter.fresh st).store = st2 := by
  rcases herr0 with h | h <;> subst h <;>
    simp [CreateGroupEmployee, hdec, hemail, hget, huser, StatusNotFound]

/-- C4 (as amended): when the body decodes, the email is non-empty, the lookup finds no
employee, the user profile is found, and `CreateEmployees` returns the ids `id0 :: ids`
without error, leaving the record it was handed by pointer as `employee1`, then the
status is 201, the store calls are the two lookups and the one `CreateEmployees` of the
request's employee, and the value given to the JSON encoder is `employee1` with `Id`
replaced by `id0`, whatever `Id` the client sent or the store wrote; its other fields
are those the store left, which are the request's when the store left the record as it
was. The body is that encoding (or the fixed message when it cannot be encoded). -/
theorem CreateGroupEmployee_created (ext : External ρ) (storeImp : StoreImplementation σ ρ)
    (body : String) (employee employee1 : Employee ρ) (st st1 st2 st3 : σ)
    (err0 : Option GoError) (profile : Option UserProfile) (id0 : String) (ids : List String)
    (hdec : ext.DecodeEmployee body = .ok employee) (hemail : employee.Email ≠ "")
    (herr0 : err0 = none ∨ err0 = some GoError.ErrNotFound)
    (hget : storeImp.EmployeeStore.GetEmployee []
      (.EmployeeAnd [.EmployeeEmailEq employee.Email, .EmployeeFullParentEq employee.Id]) st
        = ((none, err0), st1))
    (huser : storeImp.UserStore.GetUserProfile [] (.UserProfileEmailEq employee.Email) st1
        = ((profile, none), st2))
    (hcreate : storeImp.EmployeeStore.CreateEmployees employee st2
        = ((id0 :: ids, none, employee1), st3)) :
    (CreateGroupEmployee ext storeImp body ResponseWriter.fresh st).w.status = 201 ∧
    (CreateGroupEmployee ext storeImp body ResponseWriter.fresh st).panicked = false ∧
    (CreateGroupEmployee ext storeImp body ResponseWriter.fresh st).calls =
      [Call.GetEmployee []
        (.EmployeeAnd [.EmployeeEmailEq employee.Email, .EmployeeFullParentEq employee.Id]),
       Call.GetUserProfile [] (.UserProfileEmailEq employee.Email),
       Call.CreateEmployees employee] ∧
    (CreateGroupEmployee ext storeImp body ResponseWriter.fresh st).store = st3 ∧
    (∀ js, ext.MarshalEmployee ⟨id0, employee1.Email, employee1.rest⟩ = .ok js →
      (CreateGroupEmployee ext storeImp body ResponseWriter.fresh st).w.body = js ++ "\n") ∧
    (∀ e, ext.MarshalEmployee ⟨id0, employee1.Email, employee1.rest⟩ = .error e →
      (CreateGroupEmployee ext storeImp body ResponseWriter.fresh st).w.body
        = "error in encoding employee\n") ∧
    (employee1 = employee →
      ∀ js, ext.MarshalEmployee ⟨id0, employee.Email, employee.rest⟩ = .ok js →
        (CreateGroupEmployee ext storeImp body ResponseWriter.fresh st).w.body
          = js ++ "\n") := by
  have hbody : ∀ js, ext.MarshalEmployee ⟨id0, employee1.Email, employee1.rest⟩ = .ok js →
      (CreateGroupEmployee ext storeImp body ResponseWriter.fresh st).w.body = js ++ "\n" := by
    intro js hm
    rcases herr0 with h | h <;> subst h <;>
      simp [CreateGroupEmployee, hdec, hemail, hget, huser, hcreate, Encode, hm]
  refine ⟨?_, ?_, ?_, ?_, hbody, ?_, ?_⟩
  · rcases herr0 with h | h <;> subst h <;>
      cases hm : ext.MarshalEmployee ⟨id0, employee1.Email, employee1.rest⟩ <;>
      simp [CreateGroupEmployee, hdec, hemail, hget, huser, hcreate, Encode, hm, StatusCreated]
  · rcases herr0 with h | h <;> subst h <;>
      cases hm : ext.MarshalEmployee ⟨id0, employee1.Email, employee1.rest⟩ <;>
      simp [CreateGroupEmployee, hdec, hemail, hget, huser, hcreate, Encode, hm]
  · rcases herr0 with h | h <;> subst h <;>
      cases hm : ext.MarshalEmployee ⟨id0, employee1.Email, employee1.rest⟩ <;>
      simp [CreateGroupEmployee, hdec, hemail, hget, huser, hcreate, Encode, hm]
  · rcases herr0 with h | h <;> subst h <;>
      cases hm : ext.MarshalEmployee ⟨id0, employee1.Email, employee1.rest⟩ <;>
      simp [CreateGroupEmployee, hdec, hemail, hget, huser, hcreate, Encode, hm]
  · intro e hm
    rcases herr0 with h | h <;> subst h <;>
      simp [CreateGroupEmployee, hdec, hemail, hget, huser, hcreate, Encode, hm]
  · intro hsame js hm
    subst hsame
    exact hbody js hm

/-! ## LinkGroupEmployeeToCompany -/

/-- C6: for a body that decodes to `(employee_id, company_id)`, the only store call is
`AddLinks` with the single link (employee_id, company_id, "GROUP_EMPLOYEE_COMPANY"), and
the store is left exactly in the state that call produced; no store is asked whether
either id exists; the status is 201 when `AddLinks` returns no error and 500 when it
returns one, for all id values. -/
theorem LinkGroupEmployeeToCompany_adds_one_link (ext : External ρ)
    (storeImp : StoreImplementation σ ρ) (body : String)
    (request : LinkGroupEmployeeToCompanyRequest) (st : σ)
    (hdec : ext.DecodeLinkRequest body = .ok request) :
    (LinkGroupEmployeeToCompany ext storeImp body ResponseWriter.fresh st).calls =
      [Call.AddLinks [⟨request.EmployeeID, request.CompanyId, "GROUP_EMPLOYEE_COMPANY"⟩]] ∧
    (LinkGroupEmployeeToCompany ext storeImp body ResponseWriter.fresh st).store =
      (storeImp.LinkStore.AddLinks
        [⟨request.EmployeeID, request.CompanyId, "GROUP_EMPLOYEE_COMPANY"⟩] st).2 ∧
    (LinkGroupEmployeeToCompany ext storeImp body ResponseWriter.fresh st).panicked = false ∧
    ((storeImp.LinkStore.AddLinks
        [⟨request.EmployeeID, request.CompanyId, "GROUP_EMPLOYEE_COMPANY"⟩] st).1 = none →
      (LinkGroupEmployeeToCompany ext storeImp body ResponseWriter.fresh st).w.status = 201) ∧
    ((storeImp.LinkStore.AddLinks
        [⟨request.EmployeeID, request.CompanyId, "GROUP_EMPLOYEE_COMPANY"⟩] st).1 ≠ none →
      (LinkGroupEmployeeToCompany ext storeImp body ResponseWriter.fresh st).w.status = 500) := by
  refine ⟨?_, ?_, ?_, ?_, ?_⟩
  · simp only [LinkGroupEmployeeToCompany, hdec, GROUP_EMPLOYEE_COMPANY]
    split <;> rfl
  · simp only [LinkGroupEmployeeToCompany, hdec, GROUP_EMPLOYEE_COMPANY]
    split <;> rfl
  · simp only [LinkGroupEmployeeToCompany, hdec, GROUP_EMPLOYEE_COMPANY]
    split <;> rfl
  · intro h
    simp [LinkGroupEmployeeToCompany, hdec, GROUP_EMPLOYEE_COMPANY, h, StatusCreated]
  · intro h
    simp [LinkGroupEmployeeToCompany, hdec, GROUP_EMPLOYEE_COMPANY, h,
      StatusInternalServerError]

/-! ## DeleteGroupEmployee -/

/-- C9: for every id the only store call is `DeleteEmployee` with the filter
`EmployeeIdEq` of `idutil.GetId(id)`, and the store is left exactly in the state that
call produced. Without an error the handler leaves the response
writer untouched, so the response is the default 200 with an empty body; with an error
the status is 500 and the body is the line of the fixed message
"error in deleting employee", with nothing of the store's error in it. -/
theorem DeleteGroupEmployee_contract (ext : External ρ) (storeImp : StoreImplementation σ ρ)
    (id : String) (st : σ) :
    (DeleteGroupEmployee ext storeImp id ResponseWriter.fresh st).calls =
      [Call.DeleteEmployee (.EmployeeIdEq (ext.GetId id))] ∧
    (DeleteGroupEmployee ext storeImp id ResponseWriter.fresh st).store =
      (storeImp.EmployeeStore.DeleteEmployee (.EmployeeIdEq (ext.GetId id)) st).2 ∧
    (DeleteGroupEmployee ext storeImp id ResponseWriter.fresh st).panicked = false ∧
    ((storeImp.EmployeeStore.DeleteEmployee (.EmployeeIdEq (ext.GetId id)) st).1 = none →
      (DeleteGroupEmployee ext storeImp id ResponseWriter.fresh st).w = ResponseWriter.fresh ∧
      (finishRequest (DeleteGroupEmployee ext storeImp id ResponseWriter.fresh st).w).status
        = 200 ∧
      (finishRequest (DeleteGroupEmployee ext storeImp id ResponseWriter.fresh st).w).body
        = "") ∧
    ((storeImp.EmployeeStore.DeleteEmployee (.EmployeeIdEq (ext.GetId id)) st).1 ≠ none →
      (DeleteGroupEmployee ext storeImp id ResponseWriter.fresh st).w.status = 500 ∧
      (DeleteGroupEmployee ext storeImp id ResponseWriter.fresh st).w.body
        = "error in deleting employee\n") := by
  refine ⟨?_, ?_, ?_, ?_, ?_⟩
  · simp only [DeleteGroupEmployee]
    split <;> rfl
  · simp only [DeleteGroupEmployee]
    split <;> rfl
  · simp only [DeleteGroupEmployee]
    split <;> rfl
  · intro h
    simp [DeleteGroupEmployee, h, finishRequest, StatusOK]
  · intro h
    simp [DeleteGroupEmployee, h, StatusInternalServerError]

/-! ## ListCompanyLinkedGroupEmployees -/

/-- The id-collecting loop appends one normalised id per link, in order. -/
theorem foldl_append_singleton {α β : Type} (f : α → β) (xs : List α) (init : List β) :
    xs.foldl (fun acc x => acc ++ [f x]) init = init ++ xs.map f := by
  induction xs generalizing init with
  | nil => simp
  | cons x xs ih => simp [ih]

/-- The ids collected from the links are `idutil.GetId` of each first resource id. -/
theorem collectEmployeeIds_eq_map (ext : External ρ) (links : List Link) :
    collectEmployeeIds ext links = links.map (fun link => ext.GetId link.FirstResourceId) := by
  simpa [collectEmployeeIds] using
    foldl_append_singleton (fun link : Link => ext.GetId link.FirstResourceId) links []

/-- C5: a companyId that is not valid standard base64 is answered with status 400, and
neither `ListLinks` nor `ListEmployees` nor any other store call is made. -/
theorem ListCompanyLinkedGroupEmployees_bad_base64 (ext : External ρ)
    (storeImp : StoreImplementation σ ρ) (companyId : String) (st : σ) (e : GoError)
    (hbad : DecodeString companyId = .error e) :
    (ListCompanyLinkedGroupEmployees ext storeImp companyId ResponseWriter.fresh st).w.status
      = 400 ∧
    (ListCompanyLinkedGroupEmployees ext storeImp companyId ResponseWriter.fresh st).calls = [] ∧
    (ListCompanyLinkedGroupEmployees ext storeImp companyId ResponseWriter.fresh st).store
      = st := by
  simp [ListCompanyLinkedGroupEmployees, hbad, StatusBadRequest]

/-- C7: when `ListLinks` succeeds with the links `L`, the store calls are `ListLinks`
followed by exactly one `ListEmployees`, asking for all fields with the filter
`EmployeeIdIn` of the list `idutil.GetId(link.FirstResourceId)` for the links of `L` in
order (same length, duplicates kept, empty for no links); and when that query succeeds
with employees that the encoder accepts, the response is 200 with their encoding. -/
theorem ListCompanyLinkedGroupEmployees_queries_linked_ids (ext : External ρ)
    (storeImp : StoreImplementation σ ρ) (companyId s : String) (st st1 : σ) (L : List Link)
    (hdec : DecodeString companyId = .ok s)
    (hlinks : storeImp.LinkStore.ListLinks
        ⟨.SecondResourceId (QueryUnescape s).1, GROUP_EMPLOYEE_COMPANY⟩ st
        = ((some ⟨L⟩, none), st1)) :
    (ListCompanyLinkedGroupEmployees ext storeImp companyId ResponseWriter.fresh st).calls =
      [Call.ListLinks ⟨.SecondResourceId (QueryUnescape s).1, GROUP_EMPLOYEE_COMPANY⟩,
       Call.ListEmployees ext.EmployeeAllFields
        (.EmployeeIdIn (L.map (fun link => ext.GetId link.FirstResourceId)))] ∧
    (L.map (fun link => ext.GetId link.FirstResourceId)).length = L.length ∧
    ∀ (employees : List (Employee ρ)) (st2 : σ) (js : String),
      storeImp.EmployeeStore.ListEmployees ext.EmployeeAllFields
        (.EmployeeIdIn (L.map (fun link => ext.GetId link.FirstResourceId))) st1
        = ((employees, none), st2) →
      ext.MarshalEmployees employees = .ok js →
      (ListCompanyLinkedGroupEmployees ext storeImp companyId ResponseWriter.fresh st).w.status
        = 200 ∧
      (ListCompanyLinkedGroupEmployees ext storeImp companyId ResponseWriter.fresh st).w.body
        = js ++ "\n" ∧
      (ListCompanyLinkedGroupEmployees ext storeImp companyId ResponseWriter.fresh st).panicked
        = false := by
  refine ⟨?_, by simp, ?_⟩
  · simp only [ListCompanyLinkedGroupEmployees, hdec, hlinks, collectEmployeeIds_eq_map]
    simp only [ne_eq, not_true_eq_false, if_false]
    split
    · rfl
    · split <;> rfl
  · intro employees st2 js hemps hm
    simp [ListCompanyLinkedGroupEmployees, hdec, hlinks, collectEmployeeIds_eq_map, hemps,
      Encode, hm]

/-- C8 (as amended): for a companyId that base64-decodes to `s`, the first store call is
`ListLinks` with link type "GROUP_EMPLOYEE_COMPANY" and with `SecondResourceId` the
URL-unescaped form of `s` when `s` can be unescaped; when it cannot, the failure is
ignored, `ListLinks` is still called, with `SecondResourceId` the empty string that
`url.QueryUnescape` returns next to its error; in both cases the status is not 400. -/
theorem ListCompanyLinkedGroupEmployees_company_id (ext : External ρ)
    (storeImp : StoreImplementation σ ρ) (companyId s : String) (st : σ)
    (hdec : DecodeString companyId = .ok s) :
    (∀ u, QueryUnescape s = (u, none) →
      (ListCompanyLinkedGroupEmployees ext storeImp companyId ResponseWriter.fresh st).calls.head?
        = some (Call.ListLinks ⟨.SecondResourceId u, "GROUP_EMPLOYEE_COMPANY"⟩)) ∧
    (∀ u e, QueryUnescape s = (u, some e) →
      (ListCompanyLinkedGroupEmployees ext storeImp companyId ResponseWriter.fresh st).calls.head?
        = some (Call.ListLinks ⟨.SecondResourceId "", "GROUP_EMPLOYEE_COMPANY"⟩)) ∧
    (ListCompanyLinkedGroupEmployees ext storeImp companyId ResponseWriter.fresh st).w.status
      ≠ 400 := by
  have hfail : ∀ u e, QueryUnescape s = (u, some e) → u = "" := by
    intro u e h
    unfold QueryUnescape at h
    split at h
    · simp at h
    · simp only [Prod.mk.injEq] at h
      exact h.1.symm
  have hcalls : (ListCompanyLinkedGroupEmployees ext storeImp companyId
      ResponseWriter.fresh st).calls.head?
        = some (Call.ListLinks
            ⟨.SecondResourceId (QueryUnescape s).1, "GROUP_EMPLOYEE_COMPANY"⟩) := by
    simp only [ListCompanyLinkedGroupEmployees, hdec, GROUP_EMPLOYEE_COMPANY]
    repeat' split
    all_goals rfl
  refine ⟨?_, ?_, ?_⟩
  · intro u h
    rw [hcalls, h]
  · intro u e h
    rw [hcalls, h, hfail u e h]
  · simp only [ListCompanyLinkedGroupEmployees, hdec, Encode]
    repeat' split
    all_goals first
      | (simp [StatusInternalServerError]; done)
      | (rename_i heq
         split at heq <;> simp only [Prod.mk.injEq] at heq <;> obtain ⟨rfl, _⟩ := heq <;>
           simp [StatusInternalServerError, StatusOK])

/-! ## Content type of the JSON responses -/

/-- A successful `ListGroupEmployees` sends its JSON body with status 200 and the
header `Content-Type: application/json`. -/
theorem ListGroupEmployees_json_content_type (ext : External ρ)
    (storeImp : StoreImplementation σ ρ) (groupId : String) (st st1 : σ)
    (employees : List (Employee ρ)) (js : String)
    (hlist : storeImp.EmployeeStore.ListEmployees ext.EmployeeAllFields
      (.EmployeeFullParentEq groupId) st = ((employees, none), st1))
    (hm : ext.MarshalEmployees employees = .ok js) :
    (ListGroupEmployees ext storeImp groupId ResponseWriter.fresh st).w.status = 200 ∧
    (ListGroupEmployees ext storeImp groupId ResponseWriter.fresh st).w.body = js ++ "\n" ∧
    Header.Get (ListGroupEmployees ext storeImp groupId ResponseWriter.fresh st).w.sentHeader
      "Content-Type" = "application/json" := by
  simp [ListGroupEmployees, hlist, hm, Encode]
  rfl

/-- A successful `ListCompanyLinkedGroupEmployees` sends its JSON body with status 200
and the header `Content-Type: application/json`. -/
theorem ListCompanyLinkedGroupEmployees_json_content_type (ext : External ρ)
    (storeImp : StoreImplementation σ ρ) (companyId s : String) (st st1 st2 : σ)
    (L : List Link) (employees : List (Employee ρ)) (js : String)
    (hdec : DecodeString companyId = .ok s)
    (hlinks : storeImp.LinkStore.ListLinks
        ⟨.SecondResourceId (QueryUnescape s).1, GROUP_EMPLOYEE_COMPANY⟩ st
        = ((some ⟨L⟩, none), st1))
    (hlist : storeImp.EmployeeStore.ListEmployees ext.EmployeeAllFields
      (.EmployeeIdIn (collectEmployeeIds ext L)) st1 = ((employees, none), st2))
    (hm : ext.MarshalEmployees employees = .ok js) :
    (ListCompanyLinkedGroupEmployees ext storeImp companyId ResponseWriter.fresh st).w.status
      = 200 ∧
    Header.Get
      (ListCompanyLinkedGroupEmployees ext storeImp companyId ResponseWriter.fresh st).w.sentHeader
      "Content-Type" = "application/json" := by
  simp [ListCompanyLinkedGroupEmployees, hdec, hlinks, hlist, hm, Encode]
  rfl

/-- On the wire a successful `ListGroupEmployees` declares `application/json`. -/
theorem ListGroupEmployees_wire_content_type (ext : External ρ)
    (storeImp : StoreImplementation σ ρ) (groupId : String) (st st1 : σ)
    (employees : List (Employee ρ)) (js : String)
    (hlist : storeImp.EmployeeStore.ListEmployees ext.EmployeeAllFields
      (.EmployeeFullParentEq groupId) st = ((employees, none), st1))
    (hm : ext.MarshalEmployees employees = .ok js) :
    (ListGroupEmployees ext storeImp groupId ResponseWriter.fresh st).w.wireContentType
      = .declared "application/json" := by
  simp [ListGroupEmployees, hlist, hm, Encode, ResponseWriter.wireContentType]
  rfl

/-- On the wire a successful `ListCompanyLinkedGroupEmployees` declares
`application/json`. -/
theorem ListCompanyLinkedGroupEmployees_wire_content_type (ext : External ρ)
    (storeImp : StoreImplementation σ ρ) (companyId s : String) (st st1 st2 : σ)
    (L : List Link) (employees : List (Employee ρ)) (js : String)
    (hdec : DecodeString companyId = .ok s)
    (hlinks : storeImp.LinkStore.ListLinks
        ⟨.SecondResourceId (QueryUnescape s).1, GROUP_EMPLOYEE_COMPANY⟩ st
        = ((some ⟨L⟩, none), st1))
    (hlist : storeImp.EmployeeStore.ListEmployees ext.EmployeeAllFields
      (.EmployeeIdIn (collectEmployeeIds ext L)) st1 = ((employees, none), st2))
    (hm : ext.MarshalEmployees employees = .ok js) :
    (ListCompanyLinkedGroupEmployees ext storeImp companyId
      ResponseWriter.fresh st).w.wireContentType = .declared "application/json" := by
  simp [ListCompanyLinkedGroupEmployees, hdec, hlinks, hlist, hm, Encode,
    ResponseWriter.wireContentType]
  rfl

/-- A successful `CreateGroupEmployee` writes the status 201 before it sets the content
type, so the handler's headers are frozen as the empty ones of the fresh writer. -/
theorem CreateGroupEmployee_created_sentHeader (ext : External ρ)
    (storeImp : StoreImplementation σ ρ)
    (body : String) (employee employee1 : Employee ρ) (st st1 st2 st3 : σ)
    (err0 : Option GoError) (profile : Option UserProfile) (id0 : String) (ids : List String)
    (hdec : ext.DecodeEmployee body = .ok employee) (hemail : employee.Email ≠ "")
    (herr0 : err0 = none ∨ err0 = some GoError.ErrNotFound)
    (hget : storeImp.EmployeeStore.GetEmployee []
      (.EmployeeAnd [.EmployeeEmailEq employee.Email, .EmployeeFullParentEq employee.Id]) st
        = ((none, err0), st1))
    (huser : storeImp.UserStore.GetUserProfile [] (.UserProfileEmailEq employee.Email) st1
        = ((profile, none), st2))
    (hcreate : storeImp.EmployeeStore.CreateEmployees employee st2
        = ((id0 :: ids, none, employee1), st3)) :
    (CreateGroupEmployee ext storeImp body ResponseWriter.fresh st).w.sentHeader = [] := by
  rcases herr0 with h | h <;> subst h <;>
    cases hm : ext.MarshalEmployee ⟨id0, employee1.Email, employee1.rest⟩ <;>
    simp [CreateGroupEmployee, hdec, hemail, hget, huser, hcreate, Encode, hm, Error,
      ResponseWriter.DelHeader]

/-- C10 at the request `POST /employee` with body `{"email":"a@x.com"}`, where the user
exists, no such employee exists, and the store hands out the id `emp_1`: the response is
201 with the JSON body, but the handler's headers were frozen empty and hold no content
type; `Content-Type: application/json` is only in the handler's map, set after the
headers were frozen, and the content type on the wire is the one the server sniffs from
the body, not a declared `application/json`. -/
theorem CreateGroupEmployee_created_lacks_content_type :
    (CreateGroupEmployee sampleExternal (fixedStores none (some ⟨"usr_1", "a@x.com"⟩) [] [])
      "\x7b\"email\":\"a@x.com\"\x7d" ResponseWriter.fresh 0).w.status = 201 ∧
    (CreateGroupEmployee sampleExternal (fixedStores none (some ⟨"usr_1", "a@x.com"⟩) [] [])
      "\x7b\"email\":\"a@x.com\"\x7d" ResponseWriter.fresh 0).w.body
        = "\x7b\"id\":\"emp_1\",\"email\":\"a@x.com\"\x7d\n" ∧
    (CreateGroupEmployee sampleExternal (fixedStores none (some ⟨"usr_1", "a@x.com"⟩) [] [])
      "\x7b\"email\":\"a@x.com\"\x7d" ResponseWriter.fresh 0).w.sentHeader = [] ∧
    Header.Get
      (CreateGroupEmployee sampleExternal (fixedStores none (some ⟨"usr_1", "a@x.com"⟩) [] [])
        "\x7b\"email\":\"a@x.com\"\x7d" ResponseWriter.fresh 0).w.sentHeader "Content-Type"
        ≠ "application/json" ∧
    Header.Get
      (CreateGroupEmployee sampleExternal (fixedStores none (some ⟨"usr_1", "a@x.com"⟩) [] [])
        "\x7b\"email\":\"a@x.com\"\x7d" ResponseWriter.fresh 0).w.header "Content-Type"
        = "application/json" ∧
    (CreateGroupEmployee sampleExternal (fixedStores none (some ⟨"usr_1", "a@x.com"⟩) [] [])
      "\x7b\"email\":\"a@x.com\"\x7d" ResponseWriter.fresh 0).w.wireContentType
        = .sniffed "\x7b\"id\":\"emp_1\",\"email\":\"a@x.com\"\x7d\n" :=
  ⟨rfl, rfl, rfl, by decide, rfl, rfl⟩

/-- C8 as stated fails at companyId `JXp6`: it base64-decodes to `%zz`, which cannot be
URL-unescaped, and `ListLinks` is called with the empty `SecondResourceId`, not with
`%zz`. -/
theorem ListCompanyLinkedGroupEmployees_unescape_failure_empties_id :
    DecodeString "JXp6" = .ok "%zz" ∧
    (QueryUnescape "%zz").2 ≠ none ∧
    (ListCompanyLinkedGroupEmployees sampleExternal (fixedStores none none [] [])
      "JXp6" ResponseWriter.fresh 0).calls.head?
        = some (Call.ListLinks ⟨.SecondResourceId "", "GROUP_EMPLOYEE_COMPANY"⟩) ∧
    (ListCompanyLinkedGroupEmployees sampleExternal (fixedStores none none [] [])
      "JXp6" ResponseWriter.fresh 0).calls.head?
        ≠ some (Call.ListLinks ⟨.SecondResourceId "%zz", "GROUP_EMPLOYEE_COMPANY"⟩) := by
  refine ⟨rfl, by decide, rfl, ?_⟩
  have h : (ListCompanyLinkedGroupEmployees sampleExternal (fixedStores none none [] [])
      "JXp6" ResponseWriter.fresh 0).calls.head?
        = some (Call.ListLinks ⟨.SecondResourceId "", "GROUP_EMPLOYEE_COMPANY"⟩) := rfl
  rw [h]
  intro hc
  injection hc with hc
  injection hc with hc
  injection hc with hc
  injection hc with hc
  exact absurd hc (by decide)

/-! ## The theorems at concrete requests -/

/-- C1 at the body `{"id":"grp_1"}`, against stores in which the employee and the user
profile both exist. -/
theorem CreateGroupEmployee_empty_email_witness :
    sampleExternal.DecodeEmployee "\x7b\"id\":\"grp_1\"\x7d" = .ok ⟨"grp_1", "", ()⟩ ∧
    (CreateGroupEmployee sampleExternal
      (fixedStores (some ⟨"emp_9", "", ()⟩) (some ⟨"usr_1", ""⟩) [] [])
      "\x7b\"id\":\"grp_1\"\x7d" ResponseWriter.fresh 0).w.status = 400 ∧
    (CreateGroupEmployee sampleExternal
      (fixedStores (some ⟨"emp_9", "", ()⟩) (some ⟨"usr_1", ""⟩) [] [])
      "\x7b\"id\":\"grp_1\"\x7d" ResponseWriter.fresh 0).calls = [] ∧
    (CreateGroupEmployee sampleExternal
      (fixedStores (some ⟨"emp_9", "", ()⟩) (some ⟨"usr_1", ""⟩) [] [])
      "\x7b\"id\":\"grp_1\"\x7d" ResponseWriter.fresh 0).store = 0 :=
  ⟨rfl, CreateGroupEmployee_empty_email sampleExternal
    (fixedStores (some ⟨"emp_9", "", ()⟩) (some ⟨"usr_1", ""⟩) [] [])
    "\x7b\"id\":\"grp_1\"\x7d" ⟨"grp_1", "", ()⟩ 0 rfl rfl⟩

/-- C2 at the body `{"id":"grp_1","email":"a@x.com"}`, where the employee `emp_9` with
that email exists. -/
theorem CreateGroupEmployee_conflict_witness :
    (CreateGroupEmployee sampleExternal
      (fixedStores (some ⟨"emp_9", "a@x.com", ()⟩) (some ⟨"usr_1", "a@x.com"⟩) [] [])
      "\x7b\"id\":\"grp_1\",\"email\":\"a@x.com\"\x7d" ResponseWriter.fresh 0).w.status = 409 ∧
    (CreateGroupEmployee sampleExternal
      (fixedStores (some ⟨"emp_9", "a@x.com", ()⟩) (some ⟨"usr_1", "a@x.com"⟩) [] [])
      "\x7b\"id\":\"grp_1\",\"email\":\"a@x.com\"\x7d" ResponseWriter.fresh 0).calls =
      [Call.GetEmployee []
        (.EmployeeAnd [.EmployeeEmailEq "a@x.com", .EmployeeFullParentEq "grp_1"])] ∧
    (CreateGroupEmployee sampleExternal
      (fixedStores (some ⟨"emp_9", "a@x.com", ()⟩) (some ⟨"usr_1", "a@x.com"⟩) [] [])
      "\x7b\"id\":\"grp_1\",\"email\":\"a@x.com\"\x7d" ResponseWriter.fresh 0).store = 0 :=
  CreateGroupEmployee_conflict sampleExternal
    (fixedStores (some ⟨"emp_9", "a@x.com", ()⟩) (some ⟨"usr_1", "a@x.com"⟩) [] [])
    "\x7b\"id\":\"grp_1\",\"email\":\"a@x.com\"\x7d" ⟨"grp_1", "a@x.com", ()⟩
    ⟨"emp_9", "a@x.com", ()⟩ 0 0 rfl (by decide) rfl

/-- C3 at the body `{"email":"a@x.com"}`, where neither the employee nor the user
profile exists. -/
theorem CreateGroupEmployee_no_user_witness :
    (CreateGroupEmployee sampleExternal (fixedStores none none [] [])
      "\x7b\"email\":\"a@x.com\"\x7d" ResponseWriter.fresh 0).w.status = 404 ∧
    (CreateGroupEmployee sampleExternal (fixedStores none none [] [])
      "\x7b\"email\":\"a@x.com\"\x7d" ResponseWriter.fresh 0).calls =
      [Call.GetEmployee [] (.EmployeeAnd [.EmployeeEmailEq "a@x.com", .EmployeeFullParentEq ""]),
       Call.GetUserProfile [] (.UserProfileEmailEq "a@x.com")] ∧
    (∀ x, Call.CreateEmployees x ∉
      (CreateGroupEmployee sampleExternal (fixedStores none none [] [])
        "\x7b\"email\":\"a@x.com\"\x7d" ResponseWriter.fresh 0).calls) ∧
    (CreateGroupEmployee sampleExternal (fixedStores none none [] [])
      "\x7b\"email\":\"a@x.com\"\x7d" ResponseWriter.fresh 0).store = 0 :=
  CreateGroupEmployee_no_user sampleExternal (fixedStores none none [] [])
    "\x7b\"email\":\"a@x.com\"\x7d" ⟨"", "a@x.com", ()⟩ 0 0 0
    (some GoError.ErrNotFound) none GoError.ErrNotFound rfl (by decide) (Or.inr rfl) rfl rfl

/-- C4 (as amended) at the body `{"id":"grp_1","email":"A@X.com"}`, against a store
that writes the lower-case email and its id into the record: the client's `grp_1` is
replaced by `emp_1` and the response carries the email the store left. -/
theorem CreateGroupEmployee_created_witness :
    (CreateGroupEmployee sampleExternal normalisingStores
      "\x7b\"id\":\"grp_1\",\"email\":\"A@X.com\"\x7d" ResponseWriter.fresh 0).w.status = 201 ∧
    (CreateGroupEmployee sampleExternal normalisingStores
      "\x7b\"id\":\"grp_1\",\"email\":\"A@X.com\"\x7d" ResponseWriter.fresh 0).calls =
      [Call.GetEmployee []
        (.EmployeeAnd [.EmployeeEmailEq "A@X.com", .EmployeeFullParentEq "grp_1"]),
       Call.GetUserProfile [] (.UserProfileEmailEq "A@X.com"),
       Call.CreateEmployees ⟨"grp_1", "A@X.com", ()⟩] ∧
    (CreateGroupEmployee sampleExternal normalisingStores
      "\x7b\"id\":\"grp_1\",\"email\":\"A@X.com\"\x7d" ResponseWriter.fresh 0).store = 1 ∧
    (CreateGroupEmployee sampleExternal normalisingStores
      "\x7b\"id\":\"grp_1\",\"email\":\"A@X.com\"\x7d" ResponseWriter.fresh 0).w.body
        = "\x7b\"id\":\"emp_1\",\"email\":\"a@x.com\"\x7d\n" :=
  ⟨(CreateGroupEmployee_created sampleExternal normalisingStores
      "\x7b\"id\":\"grp_1\",\"email\":\"A@X.com\"\x7d" ⟨"grp_1", "A@X.com", ()⟩ ⟨"emp_1", "a@x.com", ()⟩ 0 0 0 1
      (some GoError.ErrNotFound) (some ⟨"usr_1", "a@x.com"⟩) "emp_1" []
      rfl (by decide) (Or.inr rfl) rfl rfl rfl).1,
   (CreateGroupEmployee_created sampleExternal normalisingStores
      "\x7b\"id\":\"grp_1\",\"email\":\"A@X.com\"\x7d" ⟨"grp_1", "A@X.com", ()⟩ ⟨"emp_1", "a@x.com", ()⟩ 0 0 0 1
      (some GoError.ErrNotFound) (some ⟨"usr_1", "a@x.com"⟩) "emp_1" []
      rfl (by decide) (Or.inr rfl) rfl rfl rfl).2.2.1,
   (CreateGroupEmployee_created sampleExternal normalisingStores
      "\x7b\"id\":\"grp_1\",\"email\":\"A@X.com\"\x7d" ⟨"grp_1", "A@X.com", ()⟩ ⟨"emp_1", "a@x.com", ()⟩ 0 0 0 1
      (some GoError.ErrNotFound) (some ⟨"usr_1", "a@x.com"⟩) "emp_1" []
      rfl (by decide) (Or.inr rfl) rfl rfl rfl).2.2.2.1,
   (CreateGroupEmployee_created sampleExternal normalisingStores
      "\x7b\"id\":\"grp_1\",\"email\":\"A@X.com\"\x7d" ⟨"grp_1", "A@X.com", ()⟩ ⟨"emp_1", "a@x.com", ()⟩ 0 0 0 1
      (some GoError.ErrNotFound) (some ⟨"usr_1", "a@x.com"⟩) "emp_1" []
      rfl (by decide) (Or.inr rfl) rfl rfl rfl).2.2.2.2.1
      "\x7b\"id\":\"emp_1\",\"email\":\"a@x.com\"\x7d" rfl⟩

/-- C4 as stated fails at the body `{"id":"grp_1","email":"A@X.com"}` against a store
that writes through the pointer it is handed: the body decodes, the email is not
empty, no employee is found, the user profile is found and `CreateEmployees` returns
`emp_1` without error, yet the 201 body is not the request's employee with `Id`
replaced by `emp_1`: its email is the `a@x.com` the store left, not the request's. -/
theorem CreateGroupEmployee_created_store_written_email :
    sampleExternal.DecodeEmployee "\x7b\"id\":\"grp_1\",\"email\":\"A@X.com\"\x7d" = .ok ⟨"grp_1", "A@X.com", ()⟩ ∧
    normalisingStores.EmployeeStore.GetEmployee []
      (.EmployeeAnd [.EmployeeEmailEq "A@X.com", .EmployeeFullParentEq "grp_1"]) 0
        = ((none, some GoError.ErrNotFound), 0) ∧
    normalisingStores.UserStore.GetUserProfile [] (.UserProfileEmailEq "A@X.com") 0
        = ((some ⟨"usr_1", "a@x.com"⟩, none), 0) ∧
    (normalisingStores.EmployeeStore.CreateEmployees ⟨"grp_1", "A@X.com", ()⟩ 0).1.1
        = ["emp_1"] ∧
    (normalisingStores.EmployeeStore.CreateEmployees ⟨"grp_1", "A@X.com", ()⟩ 0).1.2.1
        = none ∧
    (CreateGroupEmployee sampleExternal normalisingStores
      "\x7b\"id\":\"grp_1\",\"email\":\"A@X.com\"\x7d" ResponseWriter.fresh 0).w.status = 201 ∧
    sampleExternal.MarshalEmployee ⟨"emp_1", "A@X.com", ()⟩
        = .ok "\x7b\"id\":\"emp_1\",\"email\":\"A@X.com\"\x7d" ∧
    (CreateGroupEmployee sampleExternal normalisingStores
      "\x7b\"id\":\"grp_1\",\"email\":\"A@X.com\"\x7d" ResponseWriter.fresh 0).w.body
        = "\x7b\"id\":\"emp_1\",\"email\":\"a@x.com\"\x7d\n" ∧
    (CreateGroupEmployee sampleExternal normalisingStores
      "\x7b\"id\":\"grp_1\",\"email\":\"A@X.com\"\x7d" ResponseWriter.fresh 0).w.body
        ≠ "\x7b\"id\":\"emp_1\",\"email\":\"A@X.com\"\x7d\n" :=
  ⟨rfl, rfl, rfl, rfl, rfl, rfl, rfl, rfl, by decide⟩

/-- C5 at the companyId `cmp_1`, which is not base64 (its length is not a multiple of
four and `_` is outside the alphabet), against stores that would have answered. -/
theorem ListCompanyLinkedGroupEmployees_bad_base64_witness :
    DecodeString "cmp_1" = .error (.other "illegal base64 data") ∧
    (ListCompanyLinkedGroupEmployees sampleExternal
      (fixedStores none none [⟨"emp_1", "cmp_1", "GROUP_EMPLOYEE_COMPANY"⟩] [])
      "cmp_1" ResponseWriter.fresh 0).w.status = 400 ∧
    (ListCompanyLinkedGroupEmployees sampleExternal
      (fixedStores none none [⟨"emp_1", "cmp_1", "GROUP_EMPLOYEE_COMPANY"⟩] [])
      "cmp_1" ResponseWriter.fresh 0).calls = [] ∧
    (ListCompanyLinkedGroupEmployees sampleExternal
      (fixedStores none none [⟨"emp_1", "cmp_1", "GROUP_EMPLOYEE_COMPANY"⟩] [])
      "cmp_1" ResponseWriter.fresh 0).store = 0 :=
  ⟨rfl, ListCompanyLinkedGroupEmployees_bad_base64 sampleExternal
    (fixedStores none none [⟨"emp_1", "cmp_1", "GROUP_EMPLOYEE_COMPANY"⟩] [])
    "cmp_1" 0 (.other "illegal base64 data") rfl⟩

/-- C6 at the body `{"employee_id":"emp_1","company_id":"cmp_1"}` against a store
that adds the link (one write, status 201), and at the body `{}`, whose two ids are
empty, against a store that fails (the link of two empty ids is still what is passed,
status 500). -/
theorem LinkGroupEmployeeToCompany_adds_one_link_witness :
    (LinkGroupEmployeeToCompany sampleExternal (fixedStores none none [] [])
      "\x7b\"employee_id\":\"emp_1\",\"company_id\":\"cmp_1\"\x7d" ResponseWriter.fresh 0).calls =
      [Call.AddLinks [⟨"emp_1", "cmp_1", "GROUP_EMPLOYEE_COMPANY"⟩]] ∧
    (LinkGroupEmployeeToCompany sampleExternal (fixedStores none none [] [])
      "\x7b\"employee_id\":\"emp_1\",\"company_id\":\"cmp_1\"\x7d" ResponseWriter.fresh 0).store = 1 ∧
    (LinkGroupEmployeeToCompany sampleExternal (fixedStores none none [] [])
      "\x7b\"employee_id\":\"emp_1\",\"company_id\":\"cmp_1\"\x7d" ResponseWriter.fresh 0).w.status = 201 ∧
    (LinkGroupEmployeeToCompany sampleExternal failingStores
      "\x7b\x7d" ResponseWriter.fresh 0).calls =
      [Call.AddLinks [⟨"", "", "GROUP_EMPLOYEE_COMPANY"⟩]] ∧
    (LinkGroupEmployeeToCompany sampleExternal failingStores
      "\x7b\x7d" ResponseWriter.fresh 0).w.status = 500 :=
  ⟨(LinkGroupEmployeeToCompany_adds_one_link sampleExternal (fixedStores none none [] [])
      "\x7b\"employee_id\":\"emp_1\",\"company_id\":\"cmp_1\"\x7d" ⟨"emp_1", "cmp_1"⟩ 0 rfl).1,
   (LinkGroupEmployeeToCompany_adds_one_link sampleExternal (fixedStores none none [] [])
      "\x7b\"employee_id\":\"emp_1\",\"company_id\":\"cmp_1\"\x7d" ⟨"emp_1", "cmp_1"⟩ 0 rfl).2.1,
   (LinkGroupEmployeeToCompany_adds_one_link sampleExternal (fixedStores none none [] [])
      "\x7b\"employee_id\":\"emp_1\",\"company_id\":\"cmp_1\"\x7d" ⟨"emp_1", "cmp_1"⟩ 0 rfl).2.2.2.1 rfl,
   (LinkGroupEmployeeToCompany_adds_one_link sampleExternal failingStores
      "\x7b\x7d" ⟨"", ""⟩ 0 rfl).1,
   (LinkGroupEmployeeToCompany_adds_one_link sampleExternal failingStores
      "\x7b\x7d" ⟨"", ""⟩ 0 rfl).2.2.2.2 (by decide)⟩

/-- C7 at the companyId `Y21wXzE=` (base64 of `cmp_1`), where the company has two links
to the same employee `emp_1`: the id is asked for twice. -/
theorem ListCompanyLinkedGroupEmployees_queries_linked_ids_witness :
    DecodeString "Y21wXzE=" = .ok "cmp_1" ∧
    (ListCompanyLinkedGroupEmployees sampleExternal
      (fixedStores none none
        [⟨"emp_1", "cmp_1", "GROUP_EMPLOYEE_COMPANY"⟩, ⟨"emp_1", "cmp_1", "GROUP_EMPLOYEE_COMPANY"⟩]
        [⟨"emp_1", "a@x.com", ()⟩])
      "Y21wXzE=" ResponseWriter.fresh 0).calls =
      [Call.ListLinks ⟨.SecondResourceId "cmp_1", "GROUP_EMPLOYEE_COMPANY"⟩,
       Call.ListEmployees ["id", "email"] (.EmployeeIdIn ["emp_1", "emp_1"])] ∧
    (ListCompanyLinkedGroupEmployees sampleExternal
      (fixedStores none none
        [⟨"emp_1", "cmp_1", "GROUP_EMPLOYEE_COMPANY"⟩, ⟨"emp_1", "cmp_1", "GROUP_EMPLOYEE_COMPANY"⟩]
        [⟨"emp_1", "a@x.com", ()⟩])
      "Y21wXzE=" ResponseWriter.fresh 0).w.status = 200 ∧
    (ListCompanyLinkedGroupEmployees sampleExternal
      (fixedStores none none
        [⟨"emp_1", "cmp_1", "GROUP_EMPLOYEE_COMPANY"⟩, ⟨"emp_1", "cmp_1", "GROUP_EMPLOYEE_COMPANY"⟩]
        [⟨"emp_1", "a@x.com", ()⟩])
      "Y21wXzE=" ResponseWriter.fresh 0).w.body
      = "[\x7b\"id\":\"emp_1\",\"email\":\"a@x.com\"\x7d]\n" :=
  ⟨rfl,
   (ListCompanyLinkedGroupEmployees_queries_linked_ids sampleExternal
      (fixedStores none none
        [⟨"emp_1", "cmp_1", "GROUP_EMPLOYEE_COMPANY"⟩, ⟨"emp_1", "cmp_1", "GROUP_EMPLOYEE_COMPANY"⟩]
        [⟨"emp_1", "a@x.com", ()⟩])
      "Y21wXzE=" "cmp_1" 0 0 _ rfl rfl).1,
   ((ListCompanyLinkedGroupEmployees_queries_linked_ids sampleExternal
      (fixedStores none none
        [⟨"emp_1", "cmp_1", "GROUP_EMPLOYEE_COMPANY"⟩, ⟨"emp_1", "cmp_1", "GROUP_EMPLOYEE_COMPANY"⟩]
        [⟨"emp_1", "a@x.com", ()⟩])
      "Y21wXzE=" "cmp_1" 0 0 _ rfl rfl).2.2 [⟨"emp_1", "a@x.com", ()⟩] 0
        "[\x7b\"id\":\"emp_1\",\"email\":\"a@x.com\"\x7d]" rfl rfl).1,
   ((ListCompanyLinkedGroupEmployees_queries_linked_ids sampleExternal
      (fixedStores none none
        [⟨"emp_1", "cmp_1", "GROUP_EMPLOYEE_COMPANY"⟩, ⟨"emp_1", "cmp_1", "GROUP_EMPLOYEE_COMPANY"⟩]
        [⟨"emp_1", "a@x.com", ()⟩])
      "Y21wXzE=" "cmp_1" 0 0 _ rfl rfl).2.2 [⟨"emp_1", "a@x.com", ()⟩] 0
        "[\x7b\"id\":\"emp_1\",\"email\":\"a@x.com\"\x7d]" rfl rfl).2.1⟩

/-- C8 (as amended) at the companyIds `Y21wJTJGMQ==` (base64 of `cmp%2F1`, which
unescapes to `cmp/1`) and `JXp6` (base64 of `%zz`, which does not unescape). -/
theorem ListCompanyLinkedGroupEmployees_company_id_witness :
    DecodeString "Y21wJTJGMQ==" = .ok "cmp%2F1" ∧
    (ListCompanyLinkedGroupEmployees sampleExternal (fixedStores none none [] [])
      "Y21wJTJGMQ==" ResponseWriter.fresh 0).calls.head?
        = some (Call.ListLinks ⟨.SecondResourceId "cmp/1", "GROUP_EMPLOYEE_COMPANY"⟩) ∧
    DecodeString "JXp6" = .ok "%zz" ∧
    (ListCompanyLinkedGroupEmployees sampleExternal (fixedStores none none [] [])
      "JXp6" ResponseWriter.fresh 0).calls.head?
        = some (Call.ListLinks ⟨.SecondResourceId "", "GROUP_EMPLOYEE_COMPANY"⟩) ∧
    (ListCompanyLinkedGroupEmployees sampleExternal (fixedStores none none [] [])
      "JXp6" ResponseWriter.fresh 0).w.status ≠ 400 :=
  ⟨rfl,
   (ListCompanyLinkedGroupEmployees_company_id sampleExternal (fixedStores none none [] [])
      "Y21wJTJGMQ==" "cmp%2F1" 0 rfl).1 "cmp/1" (by decide),
   rfl,
   (ListCompanyLinkedGroupEmployees_company_id sampleExternal (fixedStores none none [] [])
      "JXp6" "%zz" 0 rfl).2.1 "" (.other "invalid URL escape") (by decide),
   (ListCompanyLinkedGroupEmployees_company_id sampleExternal (fixedStores none none [] [])
      "JXp6" "%zz" 0 rfl).2.2⟩

/-- C9 at the id `emp_1`: a store that deletes (one write) leaves the response at the
default 200 with an empty body, and a store that fails gives 500 with the fixed
message. -/
theorem DeleteGroupEmployee_contract_witness :
    (DeleteGroupEmployee sampleExternal (fixedStores none none [] [])
      "emp_1" ResponseWriter.fresh 0).calls = [Call.DeleteEmployee (.EmployeeIdEq "emp_1")] ∧
    (DeleteGroupEmployee sampleExternal (fixedStores none none [] [])
      "emp_1" ResponseWriter.fresh 0).store = 1 ∧
    (finishRequest (DeleteGroupEmployee sampleExternal (fixedStores none none [] [])
      "emp_1" ResponseWriter.fresh 0).w).status = 200 ∧
    (finishRequest (DeleteGroupEmployee sampleExternal (fixedStores none none [] [])
      "emp_1" ResponseWriter.fresh 0).w).body = "" ∧
    (DeleteGroupEmployee sampleExternal failingStores
      "emp_1" ResponseWriter.fresh 0).w.status = 500 ∧
    (DeleteGroupEmployee sampleExternal failingStores
      "emp_1" ResponseWriter.fresh 0).w.body = "error in deleting employee\n" :=
  ⟨(DeleteGroupEmployee_contract sampleExternal (fixedStores none none [] []) "emp_1" 0).1,
   (DeleteGroupEmployee_contract sampleExternal (fixedStores none none [] []) "emp_1" 0).2.1,
   ((DeleteGroupEmployee_contract sampleExternal (fixedStores none none [] [])
      "emp_1" 0).2.2.2.1 rfl).2.1,
   ((DeleteGroupEmployee_contract sampleExternal (fixedStores none none [] [])
      "emp_1" 0).2.2.2.1 rfl).2.2,
   ((DeleteGroupEmployee_contract sampleExternal failingStores "emp_1" 0).2.2.2.2
      (by decide)).1,
   ((DeleteGroupEmployee_contract sampleExternal failingStores "emp_1" 0).2.2.2.2
      (by decide)).2⟩

end GroupEmployee
